import Mathlib

/-!
Verification of the flight-monitor offer pipeline.

A shallow embedding of the qualification pipeline of `flight_monitor.py`
(class `AmadeusFlightMonitor`): the token cache (`get_access_token`), the
response parser (`parse_flights`, lines 152-237), the hardcoded airline
table (`get_airline_name`), and the orchestration skeleton of
`monitor_and_notify`.

Python values flowing through the parser are modelled by the inductive
`JVal`; fallible Python operations (`.get` on a non-dict, `float()` on a
bad string, subscripting, iteration) return `Except PyErr` so that the
`try/except` structure of the source is explicit.  Machine floats are
modelled as `Rat`: every price the program compares or divides is exact
decimal data well inside the range where float arithmetic is exact enough
for the orderings at issue, and no claim here depends on rounding.
-/

/-- The Python exception kinds the embedded operations can raise.  Which
kind is raised never matters to the program (every handler is a bare
`except Exception`), only that an exception is raised at a given point. -/
inductive PyErr where
  | attrError
  | typeError
  | valueError
  | keyError
  | indexError
  | zeroDivisionError
deriving DecidableEq, Repr

/-- A Python/JSON value as it appears in the Amadeus response: `None`,
strings, numbers (floats and ints collapsed to `Rat`), booleans, lists and
dicts (a dict is a key-ordered association list; real Python dicts have
unique keys, and every lookup below takes the first match). -/
inductive JVal where
  | null
  | str (s : String)
  | num (q : Rat)
  | bool (b : Bool)
  | arr (xs : List JVal)
  | obj (fields : List (String × JVal))

/-- First-match lookup in a dict's field list (Python dict lookup). -/
def findField (fields : List (String × JVal)) (k : String) : Option JVal :=
  match fields with
  | [] => none
  | (k2, v) :: rest => if k2 = k then some v else findField rest k

/-- Python `d.get(k, default)`: only dicts have a `.get` method; calling it
on any other value raises `AttributeError`. -/
def pyGet (v : JVal) (k : String) (d : JVal) : Except PyErr JVal :=
  match v with
  | .obj fields => .ok ((findField fields k).getD d)
  | _ => .error .attrError

/-- Python `d[k]` for a string key: `KeyError` when absent, `TypeError`
on non-dict values. -/
def pySubscript (v : JVal) (k : String) : Except PyErr JVal :=
  match v with
  | .obj fields =>
    match findField fields k with
    | some x => .ok x
    | none => .error .keyError
  | _ => .error .typeError

/-- Python `len(v)`: length of lists, strings and dicts; `TypeError`
otherwise. -/
def pyLen (v : JVal) : Except PyErr Nat :=
  match v with
  | .arr xs => .ok xs.length
  | .str s => .ok s.length
  | .obj fields => .ok fields.length
  | _ => .error .typeError

/-- Python `v[i]` for a nonnegative integer index: list element, one-char
string for strings, and an error for every other value (`KeyError` for
dicts without that key, `TypeError` for scalars — the distinction is
irrelevant to the program, see `PyErr`). -/
def pyIndex (v : JVal) (i : Nat) : Except PyErr JVal :=
  match v with
  | .arr xs =>
    match xs.get? i with
    | some x => .ok x
    | none => .error .indexError
  | .str s =>
    match s.toList.get? i with
    | some c => .ok (.str (String.mk [c]))
    | none => .error .indexError
  | _ => .error .typeError

/-- Python `for x in v`: lists yield elements, strings yield one-char
strings, dicts yield their keys; other values raise `TypeError`. -/
def pyIter (v : JVal) : Except PyErr (List JVal) :=
  match v with
  | .arr xs => .ok xs
  | .str s => .ok (s.toList.map (fun c => .str (String.mk [c])))
  | .obj fields => .ok (fields.map (fun p => .str p.1))
  | _ => .error .typeError

/-- Python truthiness of a value (never raises for these types). -/
def pyTruthy (v : JVal) : Bool :=
  match v with
  | .null => false
  | .str s => s ≠ ""
  | .num q => q ≠ 0
  | .bool b => b
  | .arr xs => !xs.isEmpty
  | .obj fields => !fields.isEmpty

/-- Python `str(v)` as used inside the f-strings building `flight_no`.
Strings are the only payloads those f-strings see in practice; the number,
boolean and `None` renderings follow Python, and the container branches
are a deterministic placeholder (they are unreachable in every statement
proved below). -/
def pyStr (v : JVal) : String :=
  match v with
  | .null => "None"
  | .str s => s
  | .num q => if q.den = 1 then toString q.num ++ ".0" else toString q.num ++ "/" ++ toString q.den
  | .bool b => if b then "True" else "False"
  | .arr _ => "[...]"
  | .obj _ => "{...}"

/-- Python `==` restricted to the scalar values that can reach the one
equality test in the parser (`outbound_airline == return_airline`):
`get_airline_name` never returns a list or a dict (it raises on unhashable
input), so only scalars are ever compared.  Python's numeric cross-type
equality `True == 1.0` is preserved. -/
def pyEqScalar (a b : JVal) : Bool :=
  match a, b with
  | .null, .null => true
  | .str x, .str y => x == y
  | .num x, .num y => x == y
  | .bool x, .bool y => x == y
  | .bool x, .num y => (if x then (1 : Rat) else 0) == y
  | .num x, .bool y => x == (if y then (1 : Rat) else 0)
  | _, _ => false

/-- Numeric value of a decimal digit character. -/
def digitVal (c : Char) : Nat := c.toNat - '0'.toNat

/-- Value of a digit string (the caller guarantees all characters are
digits and handles emptiness). -/
def digitsVal (cs : List Char) : Nat :=
  cs.foldl (fun acc c => acc * 10 + digitVal c) 0

/-- Parse an unsigned decimal numeral, optionally with a fractional part
(`"123"`, `"123.45"`, `".5"`, `"7."`).  This is the fragment of Python's
`float()` grammar the provider's price strings use; exponents, infinities
and surrounding whitespace are outside the subset and are treated as
parse failures. -/
def parseUnsigned (cs : List Char) : Option Rat :=
  let intPart := cs.takeWhile Char.isDigit
  let rest := cs.dropWhile Char.isDigit
  match rest with
  | [] =>
    if intPart.isEmpty then none
    else some ((digitsVal intPart : Nat) : Rat)
  | '.' :: frac =>
    if frac.all Char.isDigit && !(intPart.isEmpty && frac.isEmpty) then
      some (((digitsVal intPart : Nat) : Rat)
        + ((digitsVal frac : Nat) : Rat) / ((10 : Rat) ^ frac.length))
    else none
  | _ => none

/-- Python `float(s)` on a string: `ValueError` when unparseable. -/
def pyFloatOfString (s : String) : Except PyErr Rat :=
  match s.toList with
  | '-' :: rest =>
    match parseUnsigned rest with
    | some q => .ok (-q)
    | none => .error .valueError
  | '+' :: rest =>
    match parseUnsigned rest with
    | some q => .ok q
    | none => .error .valueError
  | cs =>
    match parseUnsigned cs with
    | some q => .ok q
    | none => .error .valueError

/-- Python `float(v)`: numbers and booleans convert, strings are parsed,
`None` and containers raise `TypeError`. -/
def pyFloat (v : JVal) : Except PyErr Rat :=
  match v with
  | .num q => .ok q
  | .bool b => .ok (if b then 1 else 0)
  | .str s => pyFloatOfString s
  | _ => .error .typeError

/-- The hardcoded carrier-code → Korean-display-name table inside
`get_airline_name` (flight_monitor.py lines 348-376). -/
def airline_names : List (String × String) :=
  [("KE", "대한항공"), ("OZ", "아시아나"), ("LJ", "진에어"), ("7C", "제주항공"),
   ("TW", "티웨이"), ("ZE", "이스타항공"), ("BX", "에어부산"), ("RS", "에어서울"),
   ("HA", "하와이안항공"), ("JL", "일본항공"), ("NH", "전일본공수"), ("UA", "유나이티드"),
   ("DL", "델타"), ("AA", "아메리칸"), ("SQ", "싱가포르항공"), ("TG", "타이항공"),
   ("VN", "베트남항공"), ("PR", "필리핀항공"), ("MH", "말레이시아항공"), ("CA", "중국국제항공"),
   ("CZ", "중국남방항공"), ("MU", "중국동방항공"), ("EK", "에미레이트"), ("QR", "카타르항공"),
   ("TK", "터키항공"), ("LH", "루프트한자"), ("AF", "에어프랑스")]

/-- First-match lookup in the string table (Python dict `.get` with the
code itself as default happens at the call site). -/
def lookupName (t : List (String × String)) (k : String) : Option String :=
  match t with
  | [] => none
  | (k2, v) :: rest => if k2 = k then some v else lookupName rest k

/-- `get_airline_name(carrier_code)` (lines 346-377):
`airline_names.get(carrier_code, carrier_code)`.  Strings are looked up in
the hardcoded table with the raw code as default; other hashable scalars
cannot be table keys so they come back unchanged; unhashable values
(lists, dicts) make the dict lookup raise `TypeError`. -/
def get_airline_name (v : JVal) : Except PyErr JVal :=
  match v with
  | .str c => .ok (.str ((lookupName airline_names c).getD c))
  | .arr _ => .error .typeError
  | .obj _ => .error .typeError
  | x => .ok x

/-- The monitor's configuration fields that `parse_flights` reads
(`self.adults`, `self.max_price`, `self.direct_only`; the instance in
`__init__` is `⟨2, 3000000, true⟩`). -/
structure Config where
  adults : Rat
  max_price : Rat
  direct_only : Bool

/-- The hardcoded configuration built in `__init__` (lines 49-51). -/
def cfg0 : Config := { adults := 2, max_price := 3000000, direct_only := true }

/-- One leg of the `flight_info` record (the `'outbound'`/`'inbound'`
sub-dicts built at lines 205-220). -/
structure LegInfo where
  departure : JVal
  arrival : JVal
  flight_no : String
  duration : JVal
  departure_terminal : JVal
  arrival_terminal : JVal

/-- The `flight_info` record built at lines 199-223. -/
structure FlightInfo where
  carrier_code : JVal
  airline : JVal
  price_per_person : Rat
  price_total : Rat
  currency : JVal
  outbound : LegInfo
  inbound : LegInfo
  booking_class : JVal
  available_seats : JVal

/-- The non-stop test at lines 182-184: only evaluated under
`self.direct_only`; Python's `or` short-circuits, so `len(return_segments)`
is not evaluated when the outbound leg already has more than one segment.
Returns `true` when the offer must be skipped (`continue`). -/
def nonStopCheck (cfg : Config) (obS reS : JVal) : Except PyErr Bool :=
  if cfg.direct_only then
    match pyLen obS with
    | .error e => .error e
    | .ok lo =>
      if 1 < lo then .ok true
      else
        match pyLen reS with
        | .error e => .error e
        | .ok lr => .ok (1 < lr)
  else .ok false

/-- The data the qualification checks of the loop body (lines 162-184)
hand to the record construction (lines 186-223). -/
structure PreQual where
  price_info : JVal
  total_price : Rat
  outbound_itinerary : JVal
  return_itinerary : JVal
  outbound_segments : JVal
  return_segments : JVal

/-- The price extraction and ceiling filter of the loop body
(lines 162-168): `.ok none` is the `continue` for an over-ceiling price,
`.ok (some (price_info, total_price))` hands the price dict and the
parsed total to the remaining checks. -/
def priceCheck (cfg : Config) (offer : JVal) : Except PyErr (Option (JVal × Rat)) :=
  -- price_info = offer.get('price', {})
  match pyGet offer "price" (.obj []) with
  | .error e => .error e
  | .ok price_info =>
  -- total_price = float(price_info.get('total', '0'))
  match pyGet price_info "total" (.str "0") with
  | .error e => .error e
  | .ok totalV =>
  match pyFloat totalV with
  | .error e => .error e
  | .ok total_price =>
  -- if total_price > self.max_price: continue
  if total_price > cfg.max_price then .ok none
  else .ok (some (price_info, total_price))

/-- The qualification checks of the loop body, lines 162-184, in source
order: price extraction and ceiling filter, itinerary count, segment
extraction and the conditional non-stop test.  `.ok none` is a `continue`,
`.error` a raised exception. -/
def preQualify (cfg : Config) (offer : JVal) : Except PyErr (Option PreQual) :=
  match priceCheck cfg offer with
  | .error e => .error e
  | .ok none => .ok none
  | .ok (some (price_info, total_price)) =>
  -- itineraries = offer.get('itineraries', [])
  match pyGet offer "itineraries" (.arr []) with
  | .error e => .error e
  | .ok itineraries =>
  -- if len(itineraries) < 2: continue
  match pyLen itineraries with
  | .error e => .error e
  | .ok nIt =>
  if nIt < 2 then .ok none else
  match pyIndex itineraries 0 with
  | .error e => .error e
  | .ok outbound_itinerary =>
  match pyIndex itineraries 1 with
  | .error e => .error e
  | .ok return_itinerary =>
  match pyGet outbound_itinerary "segments" (.arr []) with
  | .error e => .error e
  | .ok outbound_segments =>
  match pyGet return_itinerary "segments" (.arr []) with
  | .error e => .error e
  | .ok return_segments =>
  -- if self.direct_only: if len(..) > 1 or len(..) > 1: continue
  match nonStopCheck cfg outbound_segments return_segments with
  | .error e => .error e
  | .ok skip =>
  if skip then .ok none else
  .ok (some
    { price_info := price_info, total_price := total_price
      outbound_itinerary := outbound_itinerary
      return_itinerary := return_itinerary
      outbound_segments := outbound_segments
      return_segments := return_segments })

/-- The record construction of the loop body, lines 186-223, in source
evaluation order: carrier extraction, airline-name resolution and
combination, first-segment extraction, then the `flight_info` dict
literal field by field (the division by `self.adults` happens at the
`price_per_person` entry). -/
def buildRecord (cfg : Config) (offer : JVal) (pq : PreQual) : Except PyErr FlightInfo :=
  -- outbound_carrier = outbound_segments[0].get('carrierCode', '') if outbound_segments else ''
  match (if pyTruthy pq.outbound_segments then
            match pyIndex pq.outbound_segments 0 with
            | .error e => .error e
            | .ok s0 => pyGet s0 "carrierCode" (.str "")
          else .ok (.str "") : Except PyErr JVal) with
  | .error e => .error e
  | .ok outbound_carrier =>
  match (if pyTruthy pq.return_segments then
            match pyIndex pq.return_segments 0 with
            | .error e => .error e
            | .ok s0 => pyGet s0 "carrierCode" (.str "")
          else .ok (.str "") : Except PyErr JVal) with
  | .error e => .error e
  | .ok return_carrier =>
  -- airline name resolution and combination (lines 191-193)
  match get_airline_name outbound_carrier with
  | .error e => .error e
  | .ok outbound_airline =>
  match get_airline_name return_carrier with
  | .error e => .error e
  | .ok return_airline =>
  let airline : JVal :=
    if pyEqScalar outbound_airline return_airline then outbound_airline
    else .str (pyStr outbound_airline ++ "/" ++ pyStr return_airline)
  -- outbound_segment = outbound_segments[0] if outbound_segments else {}
  match (if pyTruthy pq.outbound_segments then pyIndex pq.outbound_segments 0
          else .ok (.obj []) : Except PyErr JVal) with
  | .error e => .error e
  | .ok outbound_segment =>
  match (if pyTruthy pq.return_segments then pyIndex pq.return_segments 0
          else .ok (.obj []) : Except PyErr JVal) with
  | .error e => .error e
  | .ok return_segment =>
  -- the flight_info dict literal, fields in source evaluation order
  if cfg.adults = 0 then .error .zeroDivisionError else
  match pyGet pq.price_info "currency" (.str "KRW") with
  | .error e => .error e
  | .ok currency =>
  match pyGet outbound_segment "departure" (.obj []) with
  | .error e => .error e
  | .ok obDepObj =>
  match pyGet obDepObj "at" (.str "") with
  | .error e => .error e
  | .ok obDep =>
  match pyGet outbound_segment "arrival" (.obj []) with
  | .error e => .error e
  | .ok obArrObj =>
  match pyGet obArrObj "at" (.str "") with
  | .error e => .error e
  | .ok obArr =>
  match pyGet outbound_segment "carrierCode" (.str "") with
  | .error e => .error e
  | .ok obCC =>
  match pyGet outbound_segment "number" (.str "") with
  | .error e => .error e
  | .ok obNum =>
  match pyGet pq.outbound_itinerary "duration" (.str "") with
  | .error e => .error e
  | .ok obDur =>
  match pyGet outbound_segment "departure" (.obj []) with
  | .error e => .error e
  | .ok obDepObj2 =>
  match pyGet obDepObj2 "terminal" (.str "") with
  | .error e => .error e
  | .ok obDepT =>
  match pyGet outbound_segment "arrival" (.obj []) with
  | .error e => .error e
  | .ok obArrObj2 =>
  match pyGet obArrObj2 "terminal" (.str "") with
  | .error e => .error e
  | .ok obArrT =>
  match pyGet return_segment "departure" (.obj []) with
  | .error e => .error e
  | .ok reDepObj =>
  match pyGet reDepObj "at" (.str "") with
  | .error e => .error e
  | .ok reDep =>
  match pyGet return_segment "arrival" (.obj []) with
  | .error e => .error e
  | .ok reArrObj =>
  match pyGet reArrObj "at" (.str "") with
  | .error e => .error e
  | .ok reArr =>
  match pyGet return_segment "carrierCode" (.str "") with
  | .error e => .error e
  | .ok reCC =>
  match pyGet return_segment "number" (.str "") with
  | .error e => .error e
  | .ok reNum =>
  match pyGet pq.return_itinerary "duration" (.str "") with
  | .error e => .error e
  | .ok reDur =>
  match pyGet return_segment "departure" (.obj []) with
  | .error e => .error e
  | .ok reDepObj2 =>
  match pyGet reDepObj2 "terminal" (.str "") with
  | .error e => .error e
  | .ok reDepT =>
  match pyGet return_segment "arrival" (.obj []) with
  | .error e => .error e
  | .ok reArrObj2 =>
  match pyGet reArrObj2 "terminal" (.str "") with
  | .error e => .error e
  | .ok reArrT =>
  match pyGet outbound_segment "cabin" (.str "ECONOMY") with
  | .error e => .error e
  | .ok booking_class =>
  match pyGet offer "numberOfBookableSeats" (.str "N/A") with
  | .error e => .error e
  | .ok available_seats =>
  .ok
    { carrier_code := outbound_carrier
      airline := airline
      price_per_person := pq.total_price / cfg.adults
      price_total := pq.total_price
      currency := currency
      outbound :=
        { departure := obDep, arrival := obArr
          flight_no := pyStr obCC ++ pyStr obNum
          duration := obDur
          departure_terminal := obDepT, arrival_terminal := obArrT }
      inbound :=
        { departure := reDep, arrival := reArr
          flight_no := pyStr reCC ++ pyStr reNum
          duration := reDur
          departure_terminal := reDepT, arrival_terminal := reArrT }
      booking_class := booking_class
      available_seats := available_seats }

/-- The body of the `for offer in offers` loop of `parse_flights`
(lines 161-225), one offer at a time: the qualification checks followed
by the record construction.  `.ok none` means the offer was dropped by a
`continue`, `.ok (some fi)` means `fi` was appended to `flights`,
`.error e` means the iteration raised (which aborts the whole loop, see
`parseLoop`). -/
def parseOffer (cfg : Config) (offer : JVal) : Except PyErr (Option FlightInfo) :=
  match preQualify cfg offer with
  | .error e => .error e
  | .ok none => .ok none
  | .ok (some pq) =>
    match buildRecord cfg offer pq with
    | .error e => .error e
    | .ok fi => .ok (some fi)

/-- The `for offer in offers` loop under the `try` of `parse_flights`:
offers are processed in order; the first raising offer aborts the loop
(the `except` at line 232 catches it), and the flag records whether that
happened.  The returned list holds the appended records in input order. -/
def parseLoop (cfg : Config) : List JVal → List FlightInfo × Bool
  | [] => ([], false)
  | o :: rest =>
    match parseOffer cfg o with
    | .error _ => ([], true)
    | .ok none => parseLoop cfg rest
    | .ok (some fi) =>
      let p := parseLoop cfg rest
      (fi :: p.1, p.2)

/-- Stable insertion of a record into a list, before the first element
whose `price_total` is not smaller. -/
def insertByPrice (x : FlightInfo) : List FlightInfo → List FlightInfo
  | [] => [x]
  | y :: ys =>
    if y.price_total < x.price_total then y :: insertByPrice x ys
    else x :: y :: ys

/-- `flights.sort(key=lambda x: x['price_total'])` (line 228).  Python's
sort is stable, and a stable ascending sort by a key is unique, so this
insertion sort computes exactly the list the source produces. -/
def sortByPriceTotal : List FlightInfo → List FlightInfo
  | [] => []
  | x :: xs => insertByPrice x (sortByPriceTotal xs)

/-- `parse_flights(data)` (lines 152-237).  Lines 155-158 run before the
`try`, so a `data['dictionaries']` value without a `.get` method raises
out of the function; inside the `try`, a raising offer aborts the loop
and the records accumulated so far are returned unsorted (the `sort` call
is also inside the `try` and is skipped on the exception path); the
`carriers` lookup table extracted at line 158 is never used afterwards. -/
def parse_flights (cfg : Config) (data : JVal) : Except PyErr (List FlightInfo) :=
  match pyGet data "data" (.arr []) with
  | .error e => .error e
  | .ok offers =>
  match pyGet data "dictionaries" (.obj []) with
  | .error e => .error e
  | .ok dictionaries =>
  match pyGet dictionaries "carriers" (.obj []) with
  | .error e => .error e
  | .ok _carriers =>
  match pyIter offers with
  | .error _ => .ok []
  | .ok offerList =>
    match parseLoop cfg offerList with
    | (recs, true) => .ok recs
    | (recs, false) => .ok (sortByPriceTotal recs)

/-- The process-local credential state (`self.access_token`,
`self.token_expires_at`); timestamps are seconds as exact rationals. -/
structure TokenState where
  access_token : Option JVal
  token_expires_at : Option Rat

/-- `expires_in - 60` (line 77): the reported TTL takes part in integer
arithmetic, so numbers and booleans work and anything else raises
`TypeError` inside the `try`. -/
def ttlMinus60 (v : JVal) : Except PyErr Rat :=
  match v with
  | .num q => .ok (q - 60)
  | .bool b => .ok ((if b then 1 else 0) - 60)
  | _ => .error .typeError

/-- The fetch branch of `get_access_token` (lines 61-87): the whole
request/parse/update sits in one `try` whose handler returns `None`.
`resp` stands for the outcome of `requests.post` + `.json()`:
`.error` is a transport/JSON exception, `.ok (status, body)` a response.
On a non-200 status the function returns `None` without touching state;
on 200 it assigns `self.access_token = token_data['access_token']` (a
raising subscript leaves the state untouched) and then
`self.token_expires_at = now + (expires_in - 60)` with
`expires_in = token_data.get('expires_in', 1799)` — if the TTL arithmetic
raises, the token has already been assigned but the old expiry remains. -/
def fetchToken (now : Rat) (resp : Except PyErr (Nat × JVal)) (st : TokenState) :
    Option JVal × TokenState :=
  match resp with
  | .error _ => (none, st)
  | .ok (status, body) =>
    if status = 200 then
      match pySubscript body "access_token" with
      | .error _ => (none, st)
      | .ok tok =>
        match pyGet body "expires_in" (.num 1799) with
        | .error _ => (none, { st with access_token := some tok })
        | .ok expV =>
          match ttlMinus60 expV with
          | .error _ => (none, { st with access_token := some tok })
          | .ok delta =>
            (some tok, { access_token := some tok, token_expires_at := some (now + delta) })
    else (none, st)

/-- `get_access_token` (lines 53-87): reuse the cached token while
`self.access_token` is truthy, `self.token_expires_at` is set and
`datetime.now() < self.token_expires_at`; otherwise fall through to the
fetch.  The `resp` argument is only consumed on the fetch path, so a
cache hit provably issues no request. -/
def get_access_token (now : Rat) (resp : Except PyErr (Nat × JVal)) (st : TokenState) :
    Option JVal × TokenState :=
  match st.access_token, st.token_expires_at with
  | some tok, some exp =>
    if pyTruthy tok then
      if now < exp then (some tok, st)
      else fetchToken now resp st
    else fetchToken now resp st
  | _, _ => fetchToken now resp st

/-- One outbound Telegram send, with the rendered text abstracted to the
data it is rendered from: `searchFail` is the line-553 failure notice and
`report flights` is `format_message(flights)` (which has both an
offers-found and a none-found rendering, but is called and sent in either
case). -/
inductive SentMsg where
  | searchFail
  | report (flights : List FlightInfo)

/-- The send/skip skeleton of `monitor_and_notify` (lines 538-578): the
returned list holds the sends performed in order.  A falsy search result
sends the failure notice and returns; otherwise `parse_flights` runs (an
exception there propagates to `main`) and the formatted message is sent
unconditionally — also when zero offers qualified. -/
def monitor_and_notify (cfg : Config) (data : JVal) : Except PyErr (List SentMsg) :=
  if pyTruthy data then
    match parse_flights cfg data with
    | .error e => .error e
    | .ok flights => .ok [.report flights]
  else .ok [.searchFail]

/-! ## Shared lemmas about the sort and the offer loop -/

/-- The ordering the ranking uses. -/
def priceLE (a b : FlightInfo) : Prop := a.price_total ≤ b.price_total

theorem insertByPrice_perm (x : FlightInfo) (l : List FlightInfo) :
    List.Perm (insertByPrice x l) (x :: l) := by
  induction l with
  | nil => simp [insertByPrice]
  | cons y ys ih =>
    rw [insertByPrice]
    by_cases hc : y.price_total < x.price_total
    · rw [if_pos hc]
      exact (ih.cons y).trans (List.Perm.swap x y ys)
    · rw [if_neg hc]

theorem sortByPriceTotal_perm (l : List FlightInfo) :
    List.Perm (sortByPriceTotal l) l := by
  induction l with
  | nil => rfl
  | cons x xs ih => exact (insertByPrice_perm x (sortByPriceTotal xs)).trans (ih.cons x)

theorem mem_sortByPriceTotal {a : FlightInfo} {l : List FlightInfo} :
    a ∈ sortByPriceTotal l ↔ a ∈ l :=
  (sortByPriceTotal_perm l).mem_iff

theorem pairwise_insertByPrice (x : FlightInfo) (l : List FlightInfo)
    (h : l.Pairwise priceLE) : (insertByPrice x l).Pairwise priceLE := by
  induction l with
  | nil => simp [insertByPrice, List.pairwise_cons]
  | cons y ys ih =>
    rw [insertByPrice]
    rcases List.pairwise_cons.mp h with ⟨hy, hys⟩
    by_cases hc : y.price_total < x.price_total
    · rw [if_pos hc]
      refine List.pairwise_cons.mpr ⟨?_, ih hys⟩
      intro z hz
      rcases List.mem_cons.mp ((insertByPrice_perm x ys).mem_iff.mp hz) with hz | hz
      · exact hz ▸ le_of_lt hc
      · exact hy z hz
    · rw [if_neg hc]
      refine List.pairwise_cons.mpr ⟨?_, h⟩
      intro z hz
      rcases List.mem_cons.mp hz with hz | hz
      · exact hz ▸ le_of_not_lt hc
      · exact le_trans (le_of_not_lt hc) (hy z hz)

theorem sortByPriceTotal_pairwise (l : List FlightInfo) :
    (sortByPriceTotal l).Pairwise priceLE := by
  induction l with
  | nil => simp [sortByPriceTotal]
  | cons x xs ih => exact pairwise_insertByPrice x _ ih

theorem filter_insertByPrice_eq (x : FlightInfo) (l : List FlightInfo) (q : Rat)
    (hx : x.price_total = q) :
    (insertByPrice x l).filter (fun f => f.price_total == q)
      = x :: l.filter (fun f => f.price_total == q) := by
  induction l with
  | nil => simp [insertByPrice, List.filter, hx]
  | cons y ys ih =>
    rw [insertByPrice]
    by_cases hc : y.price_total < x.price_total
    · rw [if_pos hc]
      have hyq : (y.price_total == q) = false := by
        simp only [beq_eq_false_iff_ne]
        exact ne_of_lt (hx ▸ hc)
      simp only [List.filter, hyq, ih]
    · rw [if_neg hc]
      simp [List.filter, hx]

theorem filter_insertByPrice_ne (x : FlightInfo) (l : List FlightInfo) (q : Rat)
    (hx : x.price_total ≠ q) :
    (insertByPrice x l).filter (fun f => f.price_total == q)
      = l.filter (fun f => f.price_total == q) := by
  have hxq : (x.price_total == q) = false := by
    simp only [beq_eq_false_iff_ne]
    exact hx
  induction l with
  | nil => simp [insertByPrice, List.filter, hxq]
  | cons y ys ih =>
    rw [insertByPrice]
    by_cases hc : y.price_total < x.price_total
    · rw [if_pos hc]
      simp only [List.filter, ih]
    · rw [if_neg hc]
      simp only [List.filter, hxq]

/-- The sort is stable: for every key value the sublist of records with
that `price_total` is exactly the corresponding sublist of the unsorted
input, in the same order. -/
theorem sortByPriceTotal_filter (l : List FlightInfo) (q : Rat) :
    (sortByPriceTotal l).filter (fun f => f.price_total == q)
      = l.filter (fun f => f.price_total == q) := by
  induction l with
  | nil => rfl
  | cons x xs ih =>
    rw [sortByPriceTotal]
    by_cases hx : x.price_total = q
    · rw [filter_insertByPrice_eq x _ q hx, ih]
      have hxq : (x.price_total == q) = true := beq_iff_eq.mpr hx
      simp [List.filter, hxq]
    · rw [filter_insertByPrice_ne x _ q hx, ih]
      have hxq : (x.price_total == q) = false := by
        simp only [beq_eq_false_iff_ne]; exact hx
      simp [List.filter, hxq]

/-- Every record the loop accumulates comes from some input offer the
loop body accepted. -/
theorem parseLoop_mem (cfg : Config) (offers : List JVal) (fi : FlightInfo)
    (h : fi ∈ (parseLoop cfg offers).1) :
    ∃ o ∈ offers, parseOffer cfg o = .ok (some fi) := by
  induction offers with
  | nil => simp [parseLoop] at h
  | cons o rest ih =>
    rw [parseLoop] at h
    rcases hpo : parseOffer cfg o with e | ofi
    · rw [hpo] at h
      simp at h
    · rw [hpo] at h
      cases ofi with
      | none =>
        simp only at h
        rcases ih h with ⟨o2, ho2, hp2⟩
        exact ⟨o2, List.mem_cons_of_mem o ho2, hp2⟩
      | some fi2 =>
        simp only at h
        rcases List.mem_cons.mp h with rfl | h2
        · exact ⟨o, List.mem_cons_self o rest, hpo⟩
        · rcases ih h2 with ⟨o2, ho2, hp2⟩
          exact ⟨o2, List.mem_cons_of_mem o ho2, hp2⟩

/-- Splitting the loop at an error-free prefix. -/
theorem parseLoop_append (cfg : Config) (l1 l2 : List JVal)
    (h : (parseLoop cfg l1).2 = false) :
    parseLoop cfg (l1 ++ l2)
      = ((parseLoop cfg l1).1 ++ (parseLoop cfg l2).1, (parseLoop cfg l2).2) := by
  induction l1 with
  | nil => simp [parseLoop]
  | cons o rest ih =>
    rcases hpo : parseOffer cfg o with e | ofi
    · rw [parseLoop, hpo] at h
      simp at h
    · cases ofi with
      | none =>
        rw [parseLoop, hpo] at h
        simp only [List.cons_append]
        rw [parseLoop, hpo]
        conv_rhs => rw [parseLoop, hpo]
        exact ih h
      | some fi2 =>
        rw [parseLoop, hpo] at h
        simp only [List.cons_append]
        rw [parseLoop, hpo]
        conv_rhs => rw [parseLoop, hpo]
        simp only [ih h, List.cons_append]

set_option maxHeartbeats 1000000

/-- A total the price stage passes on survived the `total_price >
self.max_price` filter (line 167). -/
theorem priceCheck_le (cfg : Config) (o : JVal) (pinfo : JVal) (t : Rat)
    (h : priceCheck cfg o = .ok (some (pinfo, t))) : t ≤ cfg.max_price := by
  unfold priceCheck at h
  repeat' split at h
  all_goals simp_all

/-- Data that survives the checks passed the `total_price >
self.max_price` filter (line 167). -/
theorem preQualify_price_le (cfg : Config) (o : JVal) (pq : PreQual)
    (h : preQualify cfg o = .ok (some pq)) : pq.total_price ≤ cfg.max_price := by
  unfold preQualify at h
  repeat' split at h
  all_goals simp_all
  all_goals (subst pq; exact priceCheck_le _ _ _ _ (by assumption))

/-- The record construction stores the checked total verbatim in
`price_total`. -/
theorem buildRecord_price (cfg : Config) (o : JVal) (pq : PreQual) (fi : FlightInfo)
    (h : buildRecord cfg o pq = .ok fi) : fi.price_total = pq.total_price := by
  unfold buildRecord at h
  repeat' split at h
  all_goals simp_all
  all_goals (subst fi; rfl)

/-- Any record the loop body accepts has `price_total` at most the
ceiling. -/
theorem parseOffer_price_le (cfg : Config) (o : JVal) (fi : FlightInfo)
    (h : parseOffer cfg o = .ok (some fi)) : fi.price_total ≤ cfg.max_price := by
  unfold parseOffer at h
  repeat' split at h
  all_goals simp_all
  all_goals (first
    | exact preQualify_price_le _ _ _ (by assumption)
    | (rw [buildRecord_price _ _ _ _ (by assumption)]
       exact preQualify_price_le _ _ _ (by assumption)))

/-- An offer whose `itineraries` list has fewer than two entries is
dropped by the check at lines 172-173 (or raises earlier); it never
reaches the record construction. -/
theorem preQualify_short_itineraries (cfg : Config) (fields : List (String × JVal))
    (its : List JVal) (hits : findField fields "itineraries" = some (.arr its))
    (hlen : its.length < 2) (pq : PreQual) :
    preQualify cfg (.obj fields) ≠ .ok (some pq) := by
  intro h
  unfold preQualify at h
  rcases hp : priceCheck cfg (.obj fields) with e | opt
  · rw [hp] at h
    simp at h
  · rw [hp] at h
    rcases opt with _ | ⟨pinfo, total⟩
    · simp at h
    · simp only [pyGet, hits, Option.getD_some, pyLen] at h
      rw [if_pos hlen] at h
      simp at h


/-- Under `direct_only`, an offer whose first two itinerary legs carry
segment lists with more than one segment on either side is dropped by the
check at lines 182-184 (or raises earlier); it never reaches the record
construction. -/
theorem preQualify_multi_segment (cfg : Config) (fields : List (String × JVal))
    (restIts : List JVal) (i0f i1f : List (String × JVal)) (s0 s1 : List JVal)
    (hd : cfg.direct_only = true)
    (hits : findField fields "itineraries"
      = some (.arr (.obj i0f :: .obj i1f :: restIts)))
    (hs0 : findField i0f "segments" = some (.arr s0))
    (hs1 : findField i1f "segments" = some (.arr s1))
    (hlen : 1 < s0.length ∨ 1 < s1.length) (pq : PreQual) :
    preQualify cfg (.obj fields) ≠ .ok (some pq) := by
  intro h
  unfold preQualify at h
  rcases hp : priceCheck cfg (.obj fields) with e | opt
  · rw [hp] at h
    simp at h
  · rw [hp] at h
    rcases opt with _ | ⟨pinfo, total⟩
    · simp at h
    · simp only [pyGet, hits, Option.getD_some, pyLen, pyIndex,
        List.get?_cons_zero, List.get?_cons_succ] at h
      rw [if_neg (show ¬((JVal.obj i0f :: JVal.obj i1f :: restIts).length < 2) by
        simp [List.length_cons])] at h
      rw [hs0, hs1] at h
      rcases hlen with h1 | h1
      · simp [nonStopCheck, hd, pyLen, h1] at h
      · by_cases hc : 1 < s0.length
        · simp [nonStopCheck, hd, pyLen, hc] at h
        · simp [nonStopCheck, hd, pyLen, hc, h1] at h

/-- Lifting a `preQualify` exclusion to the full loop body: an offer
whose checks never succeed produces no record. -/
theorem parseOffer_of_preQualify_excluded (cfg : Config) (o : JVal)
    (hex : ∀ pq : PreQual, preQualify cfg o ≠ .ok (some pq)) (fi : FlightInfo) :
    parseOffer cfg o ≠ .ok (some fi) := by
  intro h
  unfold parseOffer at h
  rcases hpre : preQualify cfg o with e | opq
  · rw [hpre] at h
    simp at h
  · rcases opq with _ | pq
    · rw [hpre] at h
      simp at h
    · exact hex pq hpre

/-- Every record in a `parse_flights` output was produced by the loop
body from some iterated value. -/
theorem parse_flights_record_source (cfg : Config) (data : JVal) (out : List FlightInfo)
    (h : parse_flights cfg data = .ok out) (fi : FlightInfo) (hfi : fi ∈ out) :
    ∃ o, parseOffer cfg o = .ok (some fi) := by
  unfold parse_flights at h
  repeat' split at h
  all_goals (try simp_all)
  case h_1 =>
    rename_i recs heqL
    obtain ⟨o, _, hpo⟩ := parseLoop_mem cfg _ fi (by rw [heqL]; exact hfi)
    exact ⟨o, hpo⟩
  case h_2 =>
    rename_i recs heqL
    subst h
    obtain ⟨o, _, hpo⟩ := parseLoop_mem cfg _ fi
      (by rw [heqL]; exact mem_sortByPriceTotal.mp hfi)
    exact ⟨o, hpo⟩

/-- Claim C1, amended.  The claim said qualification excludes every offer
with `price_total <= 0`; the code has no such check (line 164 defaults a
missing price to the string `'0'` and line 167 only drops prices above
`self.max_price`), so the provable bound is the ceiling side: every record
in a `parse_flights` output has `price_total` at most `max_price`. -/
theorem C1_price_ceiling (cfg : Config) (data : JVal) (out : List FlightInfo)
    (h : parse_flights cfg data = .ok out) :
    ∀ r ∈ out, r.price_total ≤ cfg.max_price := by
  intro r hr
  rcases parse_flights_record_source cfg data out h r hr with ⟨o, hpo⟩
  exact parseOffer_price_le cfg o r hpo

/-- Claim C2, amended.  The claim said a raising offer is dropped and
processing continues with the remaining offers; in the code the
`try/except` wraps the whole loop (lines 160-237), so the first raising
offer aborts the loop: the function returns exactly the records
accumulated from the offers before it, the offers after it are never
processed, and no exception propagates. -/
theorem C2_abort (cfg : Config) (pre : List JVal) (bad : JVal) (rest : List JVal)
    (hpre : (parseLoop cfg pre).2 = false) (e : PyErr)
    (hbad : parseOffer cfg bad = .error e) :
    parse_flights cfg (.obj [("data", .arr (pre ++ bad :: rest))])
      = .ok (parseLoop cfg pre).1 := by
  unfold parse_flights
  simp [pyGet, findField, pyIter]
  rw [parseLoop_append cfg pre (bad :: rest) hpre]
  rw [show parseLoop cfg (bad :: rest) = ([], true) from by rw [parseLoop, hbad]]
  simp

/-- Claim C5, amended.  The claim said the send is skipped when zero
offers qualify; the code sends unconditionally: every completed run of
`monitor_and_notify` performs exactly one outbound send — a failure
notice when the search result is falsy, otherwise the formatted message,
also when zero offers qualified. -/
theorem C5_one_send (cfg : Config) (data : JVal) (msgs : List SentMsg)
    (h : monitor_and_notify cfg data = .ok msgs) : msgs.length = 1 := by
  unfold monitor_and_notify at h
  repeat' split at h
  all_goals (try simp at h)
  all_goals (subst h; rfl)

/-- Claim C6, amended.  When no offer raises during the loop, the output
of `parse_flights` is sorted ascending by `price_total` and the sort is
stable: for every price value the records carrying it appear in input
order (the claim as stated fails on the exception path, where the
accumulated records are returned without sorting — see the
counterexample). -/
theorem C6_sorted_stable (cfg : Config) (offers : List JVal)
    (hne : (parseLoop cfg offers).2 = false) :
    ∃ out, parse_flights cfg (.obj [("data", .arr offers)]) = .ok out
      ∧ out.Pairwise priceLE
      ∧ ∀ q, out.filter (fun f => f.price_total == q)
          = ((parseLoop cfg offers).1).filter (fun f => f.price_total == q) := by
  refine ⟨sortByPriceTotal (parseLoop cfg offers).1, ?_, sortByPriceTotal_pairwise _,
    fun q => sortByPriceTotal_filter _ q⟩
  unfold parse_flights
  simp [pyGet, findField, pyIter]
  rcases hL : parseLoop cfg offers with ⟨recs, err⟩
  rw [hL] at hne
  cases err
  · simp
  · simp at hne

/-- Claim C9, amended.  `parse_flights` returns a list without raising
for every input dict whose `'dictionaries'` value, when present, is
itself a dict; exceptions inside the offer loop are caught and the
accumulated records returned.  The unconditional claim is false because
line 158 (`dictionaries.get('carriers', {})`) runs before the `try` —
see the counterexample. -/
theorem C9_contained (cfg : Config) (fields : List (String × JVal))
    (hdict : ∀ v, findField fields "dictionaries" = some v → ∃ d, v = JVal.obj d) :
    (parse_flights cfg (.obj fields)).isOk = true := by
  unfold parse_flights
  rcases hv : findField fields "dictionaries" with _ | v
  · simp only [pyGet, hv, Option.getD_none]
    rcases hI : pyIter ((findField fields "data").getD (JVal.arr [])) with e | ol
    · simp [hI, Except.isOk, Except.toBool]
    · rcases hL : parseLoop cfg ol with ⟨recs, err⟩
      cases err <;> simp [hI, hL, Except.isOk, Except.toBool]
  · obtain ⟨d, rfl⟩ := hdict v hv
    simp only [pyGet, hv, Option.getD_some]
    rcases hI : pyIter ((findField fields "data").getD (JVal.arr [])) with e | ol
    · simp [hI, Except.isOk, Except.toBool]
    · rcases hL : parseLoop cfg ol with ⟨recs, err⟩
      cases err <;> simp [hI, hL, Except.isOk, Except.toBool]

/-- Claim C4, amended.  Carrier-code resolution does not use the carrier
lookup table from the search response: the `carriers` dict extracted at
line 158 is dead, and `parse_flights` output is independent of the
response `dictionaries` (first conjunct).  Resolution goes through the
hardcoded `airline_names` table in `get_airline_name`, with the raw code
itself as the deterministic default when unmapped (second and third
conjuncts). -/
theorem C4_hardcoded_resolution :
    (∀ (cfg : Config) (offersV : JVal) (d1 d2 : List (String × JVal)),
      parse_flights cfg (.obj [("data", offersV), ("dictionaries", .obj d1)])
        = parse_flights cfg (.obj [("data", offersV), ("dictionaries", .obj d2)]))
    ∧ (∀ c n, lookupName airline_names c = some n →
        get_airline_name (.str c) = .ok (.str n))
    ∧ (∀ c, lookupName airline_names c = none →
        get_airline_name (.str c) = .ok (.str c)) := by
  refine ⟨?_, ?_, ?_⟩
  · intro cfg offersV d1 d2
    unfold parse_flights
    simp [pyGet, findField]
  · intro c n h
    simp [get_airline_name, h]
  · intro c h
    simp [get_airline_name, h]

/-- Claim C8.  `get_access_token` returns the cached token and leaves the
state untouched for every possible response whenever a (truthy) token and
an expiry are cached and `now < expires_at` — the universally quantified
`resp` shows no request is consumed.  On a fresh fetch that returns
status 200, it stores `expires_at = now + reported_ttl - 60`, with the
reported TTL defaulting to 1799 when the body omits `expires_in`. -/
theorem C8_token_cache :
    (∀ (now : Rat) (st : TokenState) (tok : JVal) (exp : Rat)
        (resp : Except PyErr (Nat × JVal)),
      st.access_token = some tok → pyTruthy tok = true →
      st.token_expires_at = some exp → now < exp →
      get_access_token now resp st = (some tok, st))
    ∧ (∀ (now : Rat) (st : TokenState) (body : List (String × JVal)) (tok : JVal) (ttl : Rat),
      st.access_token = none →
      findField body "access_token" = some tok →
      findField body "expires_in" = some (.num ttl) →
      get_access_token now (.ok (200, .obj body)) st
        = (some tok, { access_token := some tok, token_expires_at := some (now + (ttl - 60)) }))
    ∧ (∀ (now : Rat) (st : TokenState) (body : List (String × JVal)) (tok : JVal),
      st.access_token = none →
      findField body "access_token" = some tok →
      findField body "expires_in" = none →
      get_access_token now (.ok (200, .obj body)) st
        = (some tok, { access_token := some tok, token_expires_at := some (now + (1799 - 60)) })) := by
  refine ⟨?_, ?_, ?_⟩
  · intro now st tok exp resp ha htr he hlt
    obtain ⟨a, b⟩ := st
    simp only at ha he
    subst ha
    subst he
    simp [get_access_token, htr, hlt]
  · intro now st body tok ttl ha hak hexp
    obtain ⟨a, b⟩ := st
    simp only at ha
    subst ha
    simp [get_access_token, fetchToken, pySubscript, pyGet, hak, hexp, ttlMinus60]
  · intro now st body tok ha hak hexp
    obtain ⟨a, b⟩ := st
    simp only at ha
    subst ha
    simp [get_access_token, fetchToken, pySubscript, pyGet, hak, hexp, ttlMinus60]

/-- Claim C10.  The non-stop check drops only legs with more than one
segment, so zero-segment legs pass it (first conjunct), and an offer with
two zero-segment legs that passes the price and two-leg checks yields a
record whose carrier code, airline component, flight numbers and
departure/arrival timestamps are all empty strings (second conjunct). -/
theorem C10_zero_segments :
    (∀ (cfg : Config) (s0 s1 : List JVal), s0.length ≤ 1 → s1.length ≤ 1 →
        nonStopCheck cfg (.arr s0) (.arr s1) = .ok false)
    ∧ (∀ (cfg : Config) (fields pf i0f i1f : List (String × JVal)) (s : String) (q : Rat),
        findField fields "price" = some (.obj pf) →
        findField pf "total" = some (.str s) →
        pyFloatOfString s = .ok q →
        q ≤ cfg.max_price →
        findField fields "itineraries" = some (.arr [.obj i0f, .obj i1f]) →
        findField i0f "segments" = some (.arr []) →
        findField i1f "segments" = some (.arr []) →
        cfg.adults ≠ 0 →
        ∃ fi, parseOffer cfg (.obj fields) = .ok (some fi)
          ∧ fi.carrier_code = .str "" ∧ fi.airline = .str ""
          ∧ fi.price_total = q
          ∧ fi.outbound.flight_no = "" ∧ fi.outbound.departure = .str ""
          ∧ fi.outbound.arrival = .str ""
          ∧ fi.inbound.flight_no = "" ∧ fi.inbound.departure = .str ""
          ∧ fi.inbound.arrival = .str "") := by
  have partA : ∀ (cfg : Config) (s0 s1 : List JVal), s0.length ≤ 1 → s1.length ≤ 1 →
      nonStopCheck cfg (.arr s0) (.arr s1) = .ok false := by
    intro cfg s0 s1 h0 h1
    unfold nonStopCheck
    cases hdo : cfg.direct_only
    · simp
    · have n0 : ¬ 1 < s0.length := by omega
      have n1 : ¬ 1 < s1.length := by omega
      simp [pyLen, n0, n1]
  refine ⟨partA, ?_⟩
  intro cfg fields pf i0f i1f s q hp hpt hfl hq hits hs0 hs1 had
  have hpre : preQualify cfg (.obj fields)
      = .ok (some ⟨.obj pf, q, .obj i0f, .obj i1f, .arr [], .arr []⟩) := by
    unfold preQualify priceCheck
    simp only [pyGet, hp, hpt, Option.getD_some, pyFloat, hfl]
    rw [if_neg (not_lt.mpr hq)]
    simp only [pyGet, hits, Option.getD_some, pyLen, pyIndex,
      List.get?_cons_zero, List.get?_cons_succ, List.length_cons, List.length_nil]
    rw [if_neg (by omega)]
    rw [hs0, hs1]
    simp only [Option.getD_some]
    rw [partA cfg [] [] (by simp) (by simp)]
    simp
  have hbuild : buildRecord cfg (.obj fields) ⟨.obj pf, q, .obj i0f, .obj i1f, .arr [], .arr []⟩
      = .ok
        { carrier_code := .str ""
          airline := .str ""
          price_per_person := q / cfg.adults
          price_total := q
          currency := (findField pf "currency").getD (.str "KRW")
          outbound :=
            { departure := .str "", arrival := .str "", flight_no := ""
              duration := (findField i0f "duration").getD (.str "")
              departure_terminal := .str "", arrival_terminal := .str "" }
          inbound :=
            { departure := .str "", arrival := .str "", flight_no := ""
              duration := (findField i1f "duration").getD (.str "")
              departure_terminal := .str "", arrival_terminal := .str "" }
          booking_class := .str "ECONOMY"
          available_seats := (findField fields "numberOfBookableSeats").getD (.str "N/A") } := by
    unfold buildRecord
    simp [pyTruthy, pyGet, get_airline_name, lookupName, airline_names,
      pyEqScalar, pyStr, findField, had]
  refine
    ⟨{ carrier_code := .str ""
       airline := .str ""
       price_per_person := q / cfg.adults
       price_total := q
       currency := (findField pf "currency").getD (.str "KRW")
       outbound :=
         { departure := .str "", arrival := .str "", flight_no := ""
           duration := (findField i0f "duration").getD (.str "")
           departure_terminal := .str "", arrival_terminal := .str "" }
       inbound :=
         { departure := .str "", arrival := .str "", flight_no := ""
           duration := (findField i1f "duration").getD (.str "")
           departure_terminal := .str "", arrival_terminal := .str "" }
       booking_class := .str "ECONOMY"
       available_seats := (findField fields "numberOfBookableSeats").getD (.str "N/A") },
     ?_, rfl, rfl, rfl, rfl, rfl, rfl, rfl, rfl, rfl⟩
  unfold parseOffer
  rw [hpre]
  simp only [hbuild]

/-- Claim C3, amended.  Qualification drops every offer with fewer than
two itinerary legs (line 172: `len(itineraries) < 2`); offers with more
than two legs are not dropped — the code uses the first two legs — see
the counterexample. -/
theorem C3_short_excluded (cfg : Config) (fields : List (String × JVal))
    (its : List JVal) (hits : findField fields "itineraries" = some (.arr its))
    (hlen : its.length < 2) (fi : FlightInfo) :
    parseOffer cfg (.obj fields) ≠ .ok (some fi) :=
  parseOffer_of_preQualify_excluded cfg _
    (fun pq => preQualify_short_itineraries cfg fields its hits hlen pq) fi

/-- Claim C7.  With the non-stop flag set, an offer whose first two legs
have more than one segment on either side contributes no record to the
output: the check at lines 182-184 drops it (and an offer that raises
earlier is also excluded).  Together with
`parse_flights_record_source`, no such offer reaches the output. -/
theorem C7_nonstop_excluded (cfg : Config) (fields : List (String × JVal))
    (restIts : List JVal) (i0f i1f : List (String × JVal)) (s0 s1 : List JVal)
    (hd : cfg.direct_only = true)
    (hits : findField fields "itineraries"
      = some (.arr (.obj i0f :: .obj i1f :: restIts)))
    (hs0 : findField i0f "segments" = some (.arr s0))
    (hs1 : findField i1f "segments" = some (.arr s1))
    (hlen : 1 < s0.length ∨ 1 < s1.length) (fi : FlightInfo) :
    parseOffer cfg (.obj fields) ≠ .ok (some fi) :=
  parseOffer_of_preQualify_excluded cfg _
    (fun pq => preQualify_multi_segment cfg fields restIts i0f i1f s0 s1
      hd hits hs0 hs1 hlen pq) fi

def legOne (cc : String) : JVal :=
  .obj [("segments", .arr [.obj [("carrierCode", .str cc)]])]

def legEmpty : JVal := .obj [("segments", .arr [])]

def mkOffer (total : String) (its : List JVal) : JVal :=
  .obj [("price", .obj [("total", .str total)]), ("itineraries", .arr its)]

def offerKE (total : String) : JVal := mkOffer total [legOne "KE", legOne "KE"]

def offerNoPrice : JVal := .obj [("itineraries", .arr [legOne "KE", legOne "KE"])]

def offerXX : JVal := mkOffer "100" [legOne "XX", legOne "XX"]

def offer3Leg : JVal := mkOffer "100" [legOne "KE", legOne "KE", legOne "KE"]

def recOf (airline : String) (cc : String) (total : Rat) : FlightInfo :=
  { carrier_code := .str cc
    airline := .str airline
    price_per_person := total / 2
    price_total := total
    currency := .str "KRW"
    outbound :=
      { departure := .str "", arrival := .str "", flight_no := cc
        duration := .str ""
        departure_terminal := .str "", arrival_terminal := .str "" }
    inbound :=
      { departure := .str "", arrival := .str "", flight_no := cc
        duration := .str ""
        departure_terminal := .str "", arrival_terminal := .str "" }
    booking_class := .str "ECONOMY"
    available_seats := .str "N/A" }


/-! ## Counterexamples and witnesses on concrete inputs -/

/-- Claim C1 as stated is false: an offer with no `price` field at all
parses to a record with `price_total = 0` (line 164 defaults the missing
total to `'0'`), which appears in the output — qualification does not
exclude non-positive prices. -/
theorem C1_counterexample :
    parse_flights cfg0 (.obj [("data", .arr [offerNoPrice])])
      = .ok [recOf "대한항공" "KE" 0]
    ∧ (recOf "대한항공" "KE" 0).price_total ≤ 0 :=
  ⟨rfl, le_refl 0⟩

/-- Claim C1 witness: the amended ceiling bound applied to a concrete
run. -/
theorem C1_witness :
    parse_flights cfg0 (.obj [("data", .arr [offerKE "100"])])
      = .ok [recOf "대한항공" "KE" 100]
    ∧ ∀ r ∈ [recOf "대한항공" "KE" 100], r.price_total ≤ cfg0.max_price :=
  ⟨rfl, C1_price_ceiling cfg0 (.obj [("data", .arr [offerKE "100"])]) _ rfl⟩

/-- Claim C2 as stated is false: with offers `[200-KRW offer, malformed,
100-KRW offer]` the output holds only the 200-KRW record, although the
100-KRW offer qualifies on its own — processing does not continue past
the raising offer. -/
theorem C2_counterexample :
    parse_flights cfg0 (.obj [("data", .arr [offerKE "200", .num 7, offerKE "100"])])
      = .ok [recOf "대한항공" "KE" 200]
    ∧ parse_flights cfg0 (.obj [("data", .arr [offerKE "100"])])
      = .ok [recOf "대한항공" "KE" 100] :=
  ⟨rfl, rfl⟩

/-- Claim C2 witness: the amended abort behaviour on a concrete input. -/
theorem C2_witness :
    (parseLoop cfg0 [offerKE "200"]).2 = false
    ∧ parseOffer cfg0 (.num 7) = .error .attrError
    ∧ parse_flights cfg0 (.obj [("data", .arr ([offerKE "200"] ++ .num 7 :: [offerKE "100"]))])
        = .ok (parseLoop cfg0 [offerKE "200"]).1 :=
  ⟨rfl, rfl, C2_abort cfg0 [offerKE "200"] (.num 7) [offerKE "100"] rfl .attrError rfl⟩

/-- Claim C3 as stated is false: a three-leg (multi-city) offer is not
excluded — it qualifies using its first two legs. -/
theorem C3_counterexample :
    parse_flights cfg0 (.obj [("data", .arr [offer3Leg])])
      = .ok [recOf "대한항공" "KE" 100] :=
  rfl

/-- Claim C3 witness: the fewer-than-two-legs drop on a concrete one-way
offer. -/
theorem C3_witness :
    findField [("price", JVal.obj [("total", JVal.str "100")]),
        ("itineraries", JVal.arr [legOne "KE"])] "itineraries"
      = some (.arr [legOne "KE"])
    ∧ ([legOne "KE"] : List JVal).length < 2
    ∧ parseOffer cfg0 (.obj [("price", .obj [("total", .str "100")]),
        ("itineraries", .arr [legOne "KE"])])
      ≠ .ok (some (recOf "대한항공" "KE" 100)) :=
  ⟨rfl, by norm_num,
    C3_short_excluded cfg0
      [("price", JVal.obj [("total", JVal.str "100")]),
       ("itineraries", JVal.arr [legOne "KE"])]
      [legOne "KE"] rfl (by norm_num) _⟩

/-- Claim C4 as stated is false: with the search response mapping carrier
`XX` to `Wonder Air` in `dictionaries.carriers`, the output record's
airline is the raw code `XX` — the response table is ignored. -/
theorem C4_counterexample :
    parse_flights cfg0 (.obj [("data", .arr [offerXX]),
        ("dictionaries", .obj [("carriers", .obj [("XX", .str "Wonder Air")])])])
      = .ok [recOf "XX" "XX" 100]
    ∧ (recOf "XX" "XX" 100).airline = .str "XX"
    ∧ (recOf "XX" "XX" 100).airline ≠ .str "Wonder Air" := by
  refine ⟨rfl, rfl, ?_⟩
  intro h
  exact absurd (JVal.str.inj h) (by decide)

/-- Claim C4 witness: the amended resolution facts at concrete inputs. -/
theorem C4_witness :
    parse_flights cfg0 (.obj [("data", .arr []), ("dictionaries", .obj [])])
      = parse_flights cfg0 (.obj [("data", .arr []),
          ("dictionaries", .obj [("carriers", .null)])])
    ∧ get_airline_name (.str "KE") = .ok (.str "대한항공")
    ∧ get_airline_name (.str "XX") = .ok (.str "XX") :=
  ⟨C4_hardcoded_resolution.1 cfg0 (.arr []) [] [("carriers", .null)],
   C4_hardcoded_resolution.2.1 "KE" "대한항공" rfl,
   C4_hardcoded_resolution.2.2 "XX" rfl⟩

/-- Claim C5 as stated is false: a successful search with zero qualifying
offers still performs a send (the "no flights" report), not zero sends. -/
theorem C5_counterexample :
    monitor_and_notify cfg0 (.obj [("data", .arr [])]) = .ok [SentMsg.report []] :=
  rfl

/-- Claim C5 witness: exactly one send on a concrete successful run. -/
theorem C5_witness :
    monitor_and_notify cfg0 (.obj [("data", .arr [offerKE "100"])])
      = .ok [SentMsg.report [recOf "대한항공" "KE" 100]]
    ∧ ([SentMsg.report [recOf "대한항공" "KE" 100]] : List SentMsg).length = 1 :=
  ⟨rfl, C5_one_send cfg0 (.obj [("data", .arr [offerKE "100"])]) _ rfl⟩

/-- Claim C6 as stated is false: when the third offer raises, the two
records accumulated before it are returned unsorted — here `[200, 100]`
with adjacent prices out of order. -/
theorem C6_counterexample :
    parse_flights cfg0 (.obj [("data", .arr [offerKE "200", offerKE "100", .num 7])])
      = .ok [recOf "대한항공" "KE" 200, recOf "대한항공" "KE" 100]
    ∧ (recOf "대한항공" "KE" 100).price_total < (recOf "대한항공" "KE" 200).price_total :=
  ⟨rfl, by norm_num [recOf]⟩

/-- Claim C6 witness: the amended sortedness and stability on a concrete
error-free run. -/
theorem C6_witness :
    (parseLoop cfg0 [offerKE "200", offerKE "100"]).2 = false
    ∧ ∃ out, parse_flights cfg0 (.obj [("data", .arr [offerKE "200", offerKE "100"])])
          = .ok out
        ∧ out.Pairwise priceLE
        ∧ ∀ q, out.filter (fun f => f.price_total == q)
            = ((parseLoop cfg0 [offerKE "200", offerKE "100"]).1).filter
                (fun f => f.price_total == q) :=
  ⟨rfl, C6_sorted_stable cfg0 [offerKE "200", offerKE "100"] rfl⟩

/-- Claim C7 witness: an offer whose outbound leg has two segments is
excluded under the non-stop flag. -/
theorem C7_witness :
    cfg0.direct_only = true
    ∧ findField [("price", JVal.obj [("total", JVal.str "100")]),
        ("itineraries", JVal.arr [JVal.obj [("segments", JVal.arr [JVal.obj [], JVal.obj []])],
          legOne "KE"])] "itineraries"
      = some (.arr (JVal.obj [("segments", JVal.arr [JVal.obj [], JVal.obj []])]
          :: JVal.obj [("segments", JVal.arr [JVal.obj [("carrierCode", JVal.str "KE")]])] :: []))
    ∧ (1 < ([JVal.obj [], JVal.obj []] : List JVal).length
        ∨ 1 < ([JVal.obj [("carrierCode", JVal.str "KE")]] : List JVal).length)
    ∧ parseOffer cfg0 (.obj [("price", .obj [("total", .str "100")]),
        ("itineraries", .arr [.obj [("segments", .arr [.obj [], .obj []])], legOne "KE"])])
      ≠ .ok (some (recOf "대한항공" "KE" 100)) :=
  ⟨rfl, rfl, Or.inl (by norm_num),
    C7_nonstop_excluded cfg0
      [("price", JVal.obj [("total", JVal.str "100")]),
       ("itineraries", JVal.arr [JVal.obj [("segments", JVal.arr [JVal.obj [], JVal.obj []])],
         legOne "KE"])]
      [] [("segments", JVal.arr [JVal.obj [], JVal.obj []])]
      [("segments", JVal.arr [JVal.obj [("carrierCode", JVal.str "KE")]])]
      [JVal.obj [], JVal.obj []] [JVal.obj [("carrierCode", JVal.str "KE")]]
      rfl rfl rfl rfl (Or.inl (by norm_num)) _⟩

/-- Claim C8 witness: the three cache behaviours at concrete inputs. -/
theorem C8_witness :
    get_access_token 0 (.error .typeError)
        ⟨some (.str "tok"), some 10⟩ = (some (.str "tok"), ⟨some (.str "tok"), some 10⟩)
    ∧ get_access_token 0
        (.ok (200, .obj [("access_token", .str "t2"), ("expires_in", .num 100)]))
        ⟨none, none⟩
      = (some (.str "t2"), ⟨some (.str "t2"), some (0 + (100 - 60))⟩)
    ∧ get_access_token 0 (.ok (200, .obj [("access_token", .str "t3")])) ⟨none, none⟩
      = (some (.str "t3"), ⟨some (.str "t3"), some (0 + (1799 - 60))⟩) :=
  ⟨C8_token_cache.1 0 ⟨some (.str "tok"), some 10⟩ (.str "tok") 10 (.error .typeError)
      rfl rfl rfl (by norm_num),
   C8_token_cache.2.1 0 ⟨none, none⟩ [("access_token", .str "t2"), ("expires_in", .num 100)]
      (.str "t2") 100 rfl rfl rfl,
   C8_token_cache.2.2 0 ⟨none, none⟩ [("access_token", .str "t3")] (.str "t3") rfl rfl rfl⟩

/-- Claim C9 as stated is false: a dict whose `'dictionaries'` value is a
number makes line 158 raise `AttributeError` outside the `try`, escaping
`parse_flights`. -/
theorem C9_counterexample :
    parse_flights cfg0 (.obj [("data", .arr []), ("dictionaries", .num 5)])
      = .error .attrError :=
  rfl

/-- Claim C9 witness: the amended totality on a concrete well-shaped
input. -/
theorem C9_witness :
    (∀ v, findField [("data", JVal.arr [])] "dictionaries" = some v
      → ∃ d, v = JVal.obj d)
    ∧ (parse_flights cfg0 (.obj [("data", .arr [])])).isOk = true :=
  ⟨fun v h => absurd h (by simp [findField]),
   C9_contained cfg0 [("data", JVal.arr [])]
     (fun v h => absurd h (by simp [findField]))⟩

/-- Claim C10 witness: a concrete offer with two zero-segment legs
qualifies with empty-string leg fields. -/
theorem C10_witness :
    pyFloatOfString "100" = .ok 100
    ∧ (100 : Rat) ≤ cfg0.max_price
    ∧ cfg0.adults ≠ 0
    ∧ ∃ fi, parseOffer cfg0 (.obj [("price", .obj [("total", .str "100")]),
          ("itineraries", .arr [legEmpty, legEmpty])])
        = .ok (some fi)
        ∧ fi.carrier_code = .str "" ∧ fi.airline = .str ""
        ∧ fi.price_total = 100
        ∧ fi.outbound.flight_no = "" ∧ fi.outbound.departure = .str ""
        ∧ fi.outbound.arrival = .str ""
        ∧ fi.inbound.flight_no = "" ∧ fi.inbound.departure = .str ""
        ∧ fi.inbound.arrival = .str "" :=
  ⟨rfl, by norm_num [cfg0], by norm_num [cfg0],
   C10_zero_segments.2 cfg0
     [("price", JVal.obj [("total", JVal.str "100")]),
      ("itineraries", JVal.arr [legEmpty, legEmpty])]
     [("total", JVal.str "100")] [("segments", JVal.arr [])] [("segments", JVal.arr [])]
     "100" 100 rfl rfl rfl (by norm_num [cfg0]) rfl rfl rfl (by norm_num [cfg0])⟩
